import Mathlib

/-!
Shallow embedding of the embeddings-visualisation pipeline (`main.py`).

The pipeline resolves a dataset by type/source, extracts a text per record,
obtains one embedding vector per text from an external provider, reduces the
batch to 2D with t-SNE (fixed seed 42, perplexity clamped by the batch size),
draws one label per projected point, and saves the chart under a path derived
from the type/source pair.  External collaborators (the OpenAI embedding call
and sklearn's TSNE) are modelled as oracle functions passed in as parameters;
their documented contracts (one output per input, in order) appear as explicit
hypotheses where a theorem needs them.  Python exceptions are modelled with
`Except String`; the process-wide datasets and the static-file directory are
threaded through as explicit state.  Embedding-vector components are opaque to
the pipeline (no arithmetic is ever performed on them in `main.py`), so they
are modelled by `Int` to keep equality decidable.
-/

namespace EmbVis

/-- Embedding-vector components; opaque to the pipeline. -/
abbrev Scalar := Int

/-- A value stored in one field of a record: the JSON data holds strings, and
`process_data` later stores an embedding vector under the key "embedding". -/
inductive FieldVal where
  | str (s : String)
  | vec (v : List Scalar)
deriving DecidableEq, Repr

/-- A record is a Python dict: an insertion-ordered association list. -/
abbrev Record := List (String × FieldVal)

/-- Python `item[k]` lookup, as an `Option` (first binding wins). -/
def recGet (r : Record) (k : String) : Option FieldVal :=
  (r.find? (fun kv => kv.fst == k)).map (fun kv => kv.snd)

/-- Python `item[k]` raising `KeyError` when the key is absent. -/
def getField (r : Record) (k : String) : Except String FieldVal :=
  match recGet r k with
  | some v => Except.ok v
  | none => Except.error ("KeyError: " ++ k)

/-- Python `item[k] = v`: replace the existing binding in place, else append. -/
def recSet (r : Record) (k : String) (v : FieldVal) : Record :=
  if r.any (fun kv => kv.fst == k) then
    r.map (fun kv => if kv.fst == k then (k, v) else kv)
  else
    r ++ [(k, v)]

/-- The process-wide datasets loaded at startup (`DUMMY_ARTICLES`,
`DUMMY_MOVIES`, `HUGGING_FACE_MOVIES`). -/
structure Globals where
  articles : List Record
  movies : List Record
  hfMovies : List Record
deriving DecidableEq, Repr

/-- Which process-wide dataset `get_data_by_type` selected; the Python code
returns the list object itself, so mutations through it alias the global. -/
inductive DataSel where
  | articles
  | movies
  | hfMovies
deriving DecidableEq, Repr

/-- Dereference a dataset selector. -/
def selData (g : Globals) : DataSel → List Record
  | DataSel.articles => g.articles
  | DataSel.movies => g.movies
  | DataSel.hfMovies => g.hfMovies

/-- Write a (possibly mutated) record list back to the selected global. -/
def setData (g : Globals) : DataSel → List Record → Globals
  | DataSel.articles, d => { g with articles := d }
  | DataSel.movies, d => { g with movies := d }
  | DataSel.hfMovies, d => { g with hfMovies := d }

def EMBEDDING_MODEL : String := "text-embedding-3-small"
def TSNE_COMPONENTS : Nat := 2
def MIN_PERPLEXITY : Int := 5
def STATIC_DIR : String := "static"

/-- `get_data_by_type(data_type, source)`: movies pick the Hugging Face list
when requested and non-empty, else the dummy movies; every other type falls
through to the articles list.  Returns (selector, text_field, title_field). -/
def get_data_by_type (g : Globals) (data_type : String) (source : String) :
    DataSel × String × String :=
  if data_type = "movies" then
    if source = "huggingface" ∧ g.hfMovies ≠ [] then
      (DataSel.hfMovies, "plot", "title")
    else
      (DataSel.movies, "plot", "title")
  else
    (DataSel.articles, "content", "title")

/-- A 2D projection point produced by the reducer. -/
abbrev Point := Scalar × Scalar

/-- Oracle for the external OpenAI embeddings call: model name and batch of
input values, returning embedding vectors or failing. -/
abbrev Embedder := String → List FieldVal → Except String (List (List Scalar))

/-- Oracle for sklearn TSNE: n_components, perplexity, random_state, vectors. -/
abbrev Reducer := Nat → Int → Nat → List (List Scalar) → Except String (List Point)

/-- `generate_embeddings(texts)`: one batched provider call; the response
unwrapping (`model_dump` and extracting each `embedding`) is structural. -/
def generate_embeddings (embed : Embedder) (texts : List FieldVal) :
    Except String (List (List Scalar)) :=
  embed EMBEDDING_MODEL texts

/-- The saved chart: the scatter points, the per-point labels placed by the
annotation loop, and the path the figure was written to. -/
structure RenderedChart where
  points : List Point
  labels : List (FieldVal × Point)
  path : String
deriving DecidableEq, Repr

/-- The static directory contents: path-keyed files, overwrite-on-write. -/
abbrev FileStore := List (String × RenderedChart)

/-- `plt.savefig(path)`: truncating write — overwrite an existing file at the
same path, otherwise create it. -/
def fsWrite (fs : FileStore) (path : String) (c : RenderedChart) : FileStore :=
  if fs.any (fun e => e.fst == path) then
    fs.map (fun e => if e.fst == path then (path, c) else e)
  else
    fs ++ [(path, c)]

/-- The annotation loop `for i, title in enumerate(titles): annotate(title,
tsne_2d[i])`: pairs the i-th title with the i-th point, raising `IndexError`
when there are more titles than points. -/
def pairLabels : List FieldVal → List Point → Except String (List (FieldVal × Point))
  | [], _ => Except.ok []
  | _ :: _, [] => Except.error "IndexError: index out of range"
  | t :: ts, p :: ps =>
    match pairLabels ts ps with
    | Except.ok rest => Except.ok ((t, p) :: rest)
    | Except.error e => Except.error e

/-- The path chosen on line 166: `os.path.join(STATIC_DIR, f"tsne_<data_type>.png")`. -/
def imagePath (data_type : String) : String :=
  STATIC_DIR ++ "/tsne_" ++ data_type ++ ".png"

/-- `create_tsne_visualization(embedding_vectors, titles, data_type)`:
clamp the perplexity, run TSNE with seed 42, annotate each point with its
title, and save the figure to `static/tsne_<data_type>.png`. -/
def create_tsne_visualization (tsne : Reducer) (embedding_vectors : List (List Scalar))
    (titles : List FieldVal) (data_type : String) (fs : FileStore) :
    Except String (RenderedChart × FileStore) := do
  let perplexity : Int := min MIN_PERPLEXITY ((embedding_vectors.length : Int) - 1)
  let tsne_2d ← tsne TSNE_COMPONENTS perplexity 42 embedding_vectors
  let labels ← pairLabels titles tsne_2d
  let chart : RenderedChart := ⟨tsne_2d, labels, imagePath data_type⟩
  pure (chart, fsWrite fs (imagePath data_type) chart)

/-- The mutation loop `for i, item in enumerate(data): item["embedding"] =
embedding_vectors[i]`, raising `IndexError` when the vector batch is shorter
than the record list. -/
def addEmbeddings : List Record → List (List Scalar) → Except String (List Record)
  | [], _ => Except.ok []
  | _ :: _, [] => Except.error "IndexError: list index out of range"
  | r :: rs, v :: vs =>
    match addEmbeddings rs vs with
    | Except.ok rest => Except.ok (recSet r "embedding" (FieldVal.vec v) :: rest)
    | Except.error e => Except.error e

/-- A Python list comprehension `[item[field] for item in records]`: evaluated
left to right, the first missing key raises. -/
def extractFields (field : String) : List Record → Except String (List FieldVal)
  | [] => Except.ok []
  | r :: rs =>
    match getField r field with
    | Except.error e => Except.error e
    | Except.ok v =>
      match extractFields field rs with
      | Except.error e => Except.error e
      | Except.ok vs => Except.ok (v :: vs)

/-- `request.query_params.get(k, default)`. -/
def queryGet (qp : List (String × String)) (k : String) (dflt : String) : String :=
  match qp.find? (fun kv => kv.fst == k) with
  | some kv => kv.snd
  | none => dflt

/-- `str(request.base_url).rstrip("/")`. -/
def rstripSlashes (s : String) : String :=
  String.mk ((s.toList.reverse.dropWhile (fun c => c == Char.ofNat 47)).reverse)

/-- `os.path.basename`: the component after the last slash. -/
def basename (p : String) : String :=
  String.mk ((p.toList.reverse.takeWhile (fun c => !(c == Char.ofNat 47))).reverse)

/-- The dictionary `process_data` returns on success. -/
structure ProcessResult where
  type : String
  source : String
  count : Nat
  texts : List FieldVal
  chart_url : String
deriving DecidableEq, Repr

/-- Process state threaded through one request: the process-wide datasets and
the static directory. -/
structure PState where
  globals : Globals
  fs : FileStore
deriving DecidableEq, Repr

/-- `process_data(request)`: resolve the dataset, extract texts, embed, attach
each embedding to its record in place, extract the titles, render, and build
the public URL of the saved chart. -/
def process_data (embed : Embedder) (tsne : Reducer) (qp : List (String × String))
    (base_url : String) (st : PState) : Except String (ProcessResult × PState) := do
  let data_type := queryGet qp "type" "articles"
  let source := queryGet qp "source" "dummy"
  let r := get_data_by_type st.globals data_type source
  let data := selData st.globals r.fst
  let _sample ← extractFields r.snd.snd (data.take 3)
  let texts ← extractFields r.snd.fst data
  let embedding_vectors ← generate_embeddings embed texts
  let data2 ← addEmbeddings data embedding_vectors
  let titles ← extractFields r.snd.snd data2
  let rendered ← create_tsne_visualization tsne embedding_vectors titles
      (data_type ++ "_" ++ source) st.fs
  let image_url := rstripSlashes base_url ++ "/static/" ++ basename rendered.fst.path
  pure ({ type := data_type, source := source, count := data.length,
          texts := texts, chart_url := image_url },
        { globals := setData st.globals r.fst data2, fs := rendered.snd })

/-- JSON values, for stating the response shape of the endpoint. -/
inductive Json where
  | str (s : String)
  | num (n : Nat)
  | bool (b : Bool)
  | arr (xs : List Json)
  | obj (kvs : List (String × Json))

/-- Render a record field value into the response JSON. -/
def fieldValJson : FieldVal → Json
  | FieldVal.str s => Json.str s
  | FieldVal.vec v => Json.arr (v.map (fun x => Json.num x.toNat))

/-- The success response body `{"success": true, "data": {...}}`. -/
def successJson (d : ProcessResult) : List (String × Json) :=
  [("success", Json.bool true),
   ("data", Json.obj
     [("type", Json.str d.type),
      ("source", Json.str d.source),
      ("count", Json.num d.count),
      ("texts", Json.arr (d.texts.map fieldValJson)),
      ("chart_url", Json.str d.chart_url)])]

/-- The failure response body `{"success": false, "error": ..., "message": ...}`. -/
def failureJson (err : String) : List (String × Json) :=
  [("success", Json.bool false),
   ("error", Json.str err),
   ("message", Json.str "Failed to process data and generate visualization")]

/-- The `/process` endpoint `get_processed_data`: wrap `process_data` in
try/except and always return a structured body. -/
def get_processed_data (embed : Embedder) (tsne : Reducer) (qp : List (String × String))
    (base_url : String) (st : PState) : List (String × Json) × PState :=
  match process_data embed tsne qp base_url st with
  | Except.ok (d, st2) => (successJson d, st2)
  | Except.error e => (failureJson e, st)

/-- Retrieve a file from the static directory by path. -/
def fsGet (fs : FileStore) (p : String) : Option RenderedChart :=
  (fs.find? (fun e => e.fst == p)).map (fun e => e.snd)

/-- Top-level keys of a JSON response body. -/
def respKeys (resp : List (String × Json)) : List String :=
  resp.map (fun kv => kv.fst)

/-- Keys of the `data` object of a response body, when present. -/
def dataKeys (resp : List (String × Json)) : Option (List String) :=
  match resp.find? (fun kv => kv.fst == "data") with
  | some (_, Json.obj kvs) => some (kvs.map (fun kv => kv.fst))
  | _ => none

/-- The boolean under the `success` key of a response body, when present. -/
def successFlag (resp : List (String × Json)) : Option Bool :=
  match resp.find? (fun kv => kv.fst == "success") with
  | some (_, Json.bool b) => some b
  | _ => none

/-! Concrete fixtures used to witness and refute claims: a two-article
dataset shaped like `data/articles.json`, together with benign and probing
oracles for the two external collaborators. -/

def recA1 : Record :=
  [("id", FieldVal.str "1"), ("title", FieldVal.str "Alpha"),
   ("content", FieldVal.str "alpha body")]

def recA2 : Record :=
  [("id", FieldVal.str "2"), ("title", FieldVal.str "Beta"),
   ("content", FieldVal.str "beta body")]

def gFix : Globals := ⟨[recA1, recA2], [], []⟩

def gOne : Globals := ⟨[recA1], [], []⟩

def gEmpty : Globals := ⟨[], [], []⟩

def stFix : PState := ⟨gFix, []⟩

/-- A provider oracle returning one length-1 vector per input, in order. -/
def embedOk : Embedder := fun _ ts => Except.ok (ts.map (fun _ => [0]))

/-- A reducer oracle returning one origin point per input vector, in order. -/
def tsneOk : Reducer := fun _ _ _ vs => Except.ok (vs.map (fun _ => (0, 0)))

/-- A provider oracle that fails, marking that the provider was invoked. -/
def embedFail : Embedder := fun _ _ => Except.error "EMBED_CALLED"

/-- A reducer oracle that fails, marking that the reducer was invoked. -/
def tsneFail : Reducer := fun _ _ _ _ => Except.error "REDUCER_CALLED"

/-- `recA1` after the pipeline attached its embedding in place. -/
def recA1e : Record :=
  [("id", FieldVal.str "1"), ("title", FieldVal.str "Alpha"),
   ("content", FieldVal.str "alpha body"), ("embedding", FieldVal.vec [0])]

/-- `recA2` after the pipeline attached its embedding in place. -/
def recA2e : Record :=
  [("id", FieldVal.str "2"), ("title", FieldVal.str "Beta"),
   ("content", FieldVal.str "beta body"), ("embedding", FieldVal.vec [0])]

/-- The chart the fixture run saves. -/
def chartFix : RenderedChart :=
  ⟨[(0, 0), (0, 0)],
   [(FieldVal.str "Alpha", (0, 0)), (FieldVal.str "Beta", (0, 0))],
   "static/tsne_articles_dummy.png"⟩

/-- The process state after the fixture run: records mutated, chart saved. -/
def stAfter : PState :=
  ⟨⟨[recA1e, recA2e], [], []⟩, [("static/tsne_articles_dummy.png", chartFix)]⟩

/-- The success payload of the fixture run. -/
def resFix : ProcessResult :=
  { type := "articles", source := "dummy", count := 2,
    texts := [FieldVal.str "alpha body", FieldVal.str "beta body"],
    chart_url := "http://h/static/tsne_articles_dummy.png" }

/-- The chart rendered from two vectors and no titles under key "k". -/
def chartK : RenderedChart := ⟨[(0, 0), (0, 0)], [], "static/tsne_k.png"⟩

/-! ### Inversion and pointwise lemmas for the stage functions -/

theorem exceptBind_ok {α β : Type} {x : Except String α} {f : α → Except String β} {b : β}
    (h : x >>= f = Except.ok b) : ∃ a, x = Except.ok a ∧ f a = Except.ok b := by
  cases x with
  | error e => simp [Bind.bind, Except.bind] at h
  | ok a => exact ⟨a, rfl, by simpa [Bind.bind, Except.bind] using h⟩

theorem getField_ok_iff {r : Record} {k : String} {v : FieldVal} :
    getField r k = Except.ok v ↔ recGet r k = some v := by
  unfold getField
  cases h : recGet r k <;> simp

theorem extractFields_length {f : String} :
    ∀ {rs : List Record} {xs : List FieldVal},
      extractFields f rs = Except.ok xs → xs.length = rs.length := by
  intro rs
  induction rs with
  | nil =>
    intro xs h
    simp only [extractFields] at h
    cases h
    rfl
  | cons r rs ih =>
    intro xs h
    simp only [extractFields] at h
    cases hg : getField r f with
    | error e => rw [hg] at h; exact Except.noConfusion h
    | ok v =>
      rw [hg] at h
      cases he : extractFields f rs with
      | error e => rw [he] at h; exact Except.noConfusion h
      | ok vs =>
        rw [he] at h
        cases h
        simp [ih he]

theorem extractFields_get? {f : String} :
    ∀ {rs : List Record} {xs : List FieldVal},
      extractFields f rs = Except.ok xs →
      ∀ {i : Nat} {r : Record}, rs.get? i = some r →
      ∃ t, recGet r f = some t ∧ xs.get? i = some t := by
  intro rs
  induction rs with
  | nil =>
    intro xs _ i r hi
    simp at hi
  | cons r0 rs ih =>
    intro xs h i r hi
    simp only [extractFields] at h
    cases hg : getField r0 f with
    | error e => rw [hg] at h; exact Except.noConfusion h
    | ok v =>
      rw [hg] at h
      cases he : extractFields f rs with
      | error e => rw [he] at h; exact Except.noConfusion h
      | ok vs =>
        rw [he] at h
        cases h
        cases i with
        | zero =>
          cases hi
          exact ⟨v, getField_ok_iff.mp hg, rfl⟩
        | succ j => exact ih he hi

theorem addEmbeddings_length :
    ∀ {rs : List Record} {vs : List (List Scalar)} {rs2 : List Record},
      addEmbeddings rs vs = Except.ok rs2 → rs2.length = rs.length := by
  intro rs
  induction rs with
  | nil =>
    intro vs rs2 h
    simp only [addEmbeddings] at h
    cases h
    rfl
  | cons r rs ih =>
    intro vs rs2 h
    cases vs with
    | nil => exact Except.noConfusion h
    | cons v vs =>
      simp only [addEmbeddings] at h
      cases ha : addEmbeddings rs vs with
      | error e => rw [ha] at h; exact Except.noConfusion h
      | ok rest =>
        rw [ha] at h
        cases h
        simp [ih ha]

theorem addEmbeddings_get? :
    ∀ {rs : List Record} {vs : List (List Scalar)} {rs2 : List Record},
      addEmbeddings rs vs = Except.ok rs2 →
      ∀ {i : Nat} {r : Record}, rs.get? i = some r →
      ∃ v, vs.get? i = some v ∧
        rs2.get? i = some (recSet r "embedding" (FieldVal.vec v)) := by
  intro rs
  induction rs with
  | nil =>
    intro vs rs2 _ i r hi
    simp at hi
  | cons r0 rs ih =>
    intro vs rs2 h i r hi
    cases vs with
    | nil => exact Except.noConfusion h
    | cons v vs =>
      simp only [addEmbeddings] at h
      cases ha : addEmbeddings rs vs with
      | error e => rw [ha] at h; exact Except.noConfusion h
      | ok rest =>
        rw [ha] at h
        cases h
        cases i with
        | zero =>
          cases hi
          exact ⟨v, rfl, rfl⟩
        | succ j => exact ih ha hi

theorem pairLabels_ok_zip :
    ∀ {ts : List FieldVal} {ps : List Point} {ls : List (FieldVal × Point)},
      pairLabels ts ps = Except.ok ls → ls = ts.zip ps := by
  intro ts
  induction ts with
  | nil =>
    intro ps ls h
    simp only [pairLabels] at h
    cases h
    simp
  | cons t ts ih =>
    intro ps ls h
    cases ps with
    | nil => exact Except.noConfusion h
    | cons p ps =>
      simp only [pairLabels] at h
      cases hp : pairLabels ts ps with
      | error e => rw [hp] at h; exact Except.noConfusion h
      | ok rest =>
        rw [hp] at h
        cases h
        simp [ih hp]

theorem pairLabels_total_of_le :
    ∀ {ts : List FieldVal} {ps : List Point}, ts.length ≤ ps.length →
      pairLabels ts ps = Except.ok (ts.zip ps) := by
  intro ts
  induction ts with
  | nil => intro ps _; simp [pairLabels]
  | cons t ts ih =>
    intro ps h
    cases ps with
    | nil => simp at h
    | cons p ps =>
      simp only [List.length_cons, Nat.succ_le_succ_iff] at h
      simp [pairLabels, ih h]

theorem recGet_cons (kv : String × FieldVal) (r : Record) (k2 : String) :
    recGet (kv :: r) k2 = if kv.fst == k2 then some kv.snd else recGet r k2 := by
  cases hp : (kv.fst == k2) with
  | true =>
    have : (fun e => e.fst == k2) kv = true := hp
    simp [recGet, List.find?_cons_of_pos _ this, hp]
  | false =>
    have : ¬((fun e => e.fst == k2) kv = true) := by simp [hp]
    simp [recGet, List.find?_cons_of_neg _ this, hp]

theorem recGet_map_overwrite {k k2 : String} {v : FieldVal} (h : k2 ≠ k) :
    ∀ (r : Record),
      recGet (r.map (fun kv => if kv.fst == k then (k, v) else kv)) k2 = recGet r k2 := by
  intro r
  induction r with
  | nil => rfl
  | cons e r ih =>
    rw [List.map_cons, recGet_cons, recGet_cons]
    by_cases he : e.fst = k
    · have hif : (if e.fst == k then (k, v) else e) = (k, v) := by simp [he]
      rw [hif]
      have h1 : ¬(((k, v).fst == k2) = true) := by
        simp only [beq_iff_eq]
        exact fun hk => h hk.symm
      have h2 : ¬((e.fst == k2) = true) := by
        simp only [beq_iff_eq, he]
        exact fun hk => h hk.symm
      rw [if_neg h1, if_neg h2]
      exact ih
    · have hif : (if e.fst == k then (k, v) else e) = e := by simp [he]
      rw [hif]
      by_cases hp : (e.fst == k2) = true
      · rw [if_pos hp, if_pos hp]
      · rw [if_neg hp, if_neg hp]
        exact ih

theorem recGet_append_single {k k2 : String} {v : FieldVal} (h : k2 ≠ k) :
    ∀ (r : Record), recGet (r ++ [(k, v)]) k2 = recGet r k2 := by
  intro r
  have h1 : ¬(((k, v).fst == k2) = true) := by
    simp only [beq_iff_eq]
    exact fun hk => h hk.symm
  induction r with
  | nil =>
    rw [List.nil_append, recGet_cons, if_neg h1]
  | cons e r ih =>
    rw [List.cons_append, recGet_cons, recGet_cons]
    by_cases hp : (e.fst == k2) = true
    · rw [if_pos hp, if_pos hp]
    · rw [if_neg hp, if_neg hp]
      exact ih

theorem recGet_recSet_ne (r : Record) (k k2 : String) (v : FieldVal) (h : k2 ≠ k) :
    recGet (recSet r k v) k2 = recGet r k2 := by
  unfold recSet
  by_cases ha : r.any (fun kv => kv.fst == k)
  · rw [if_pos ha]
    exact recGet_map_overwrite h r
  · rw [if_neg ha]
    exact recGet_append_single h r

theorem fsWrite_any_self (fs : FileStore) (p : String) (c : RenderedChart) :
    (fsWrite fs p c).any (fun e => e.fst == p) = true := by
  unfold fsWrite
  by_cases ha : fs.any (fun e => e.fst == p)
  · rw [if_pos ha]
    rw [List.any_eq_true] at ha ⊢
    obtain ⟨e, he, hp⟩ := ha
    exact ⟨(p, c), List.mem_map.mpr ⟨e, he, by simp [hp]⟩, by simp⟩
  · rw [if_neg ha]
    simp

theorem find?_append_of_none {α : Type} {p : α → Bool} :
    ∀ {l1 l2 : List α}, l1.find? p = none → (l1 ++ l2).find? p = l2.find? p := by
  intro l1
  induction l1 with
  | nil => intro l2 _; simp
  | cons a l1 ih =>
    intro l2 h
    simp only [List.find?] at h ⊢
    cases hp : p a with
    | true => rw [hp] at h; exact Option.noConfusion h
    | false =>
      rw [hp] at h
      simp only [List.cons_append, List.find?, hp]
      exact ih h

theorem find?_map_overwrite {p : String} {c : RenderedChart} :
    ∀ {fs : FileStore}, fs.any (fun e => e.fst == p) = true →
      (fs.map (fun e => if e.fst == p then (p, c) else e)).find? (fun e => e.fst == p)
        = some (p, c) := by
  intro fs
  induction fs with
  | nil => intro h; simp at h
  | cons e fs ih =>
    intro h
    rw [List.map_cons]
    by_cases he : e.fst = p
    · have hif : (if e.fst == p then (p, c) else e) = (p, c) := by simp [he]
      rw [hif]
      exact List.find?_cons_of_pos _ (by simp)
    · have hbe : (e.fst == p) = false := by simp [he]
      have hif : (if e.fst == p then (p, c) else e) = e := by simp [he]
      simp only [List.any_cons, hbe, Bool.false_or] at h
      rw [hif, List.find?_cons_of_neg _ (by simp [he])]
      exact ih h

theorem get_data_by_type_title (g : Globals) (a b : String) :
    (get_data_by_type g a b).snd.snd = "title" := by
  unfold get_data_by_type
  by_cases h1 : a = "movies"
  · rw [if_pos h1]
    by_cases h2 : b = "huggingface" ∧ g.hfMovies ≠ []
    · rw [if_pos h2]
    · rw [if_neg h2]
  · rw [if_neg h1]

theorem selData_setData_ne (g : Globals) (sel sel2 : DataSel) (d : List Record)
    (h : sel2 ≠ sel) : selData (setData g sel d) sel2 = selData g sel2 := by
  cases sel <;> cases sel2 <;> first
    | exact absurd rfl h
    | rfl

theorem fsGet_fsWrite_self (fs : FileStore) (p : String) (c : RenderedChart) :
    fsGet (fsWrite fs p c) p = some c := by
  unfold fsGet fsWrite
  by_cases ha : fs.any (fun e => e.fst == p)
  · rw [if_pos ha, find?_map_overwrite ha]
    rfl
  · rw [if_neg ha]
    have hn : fs.find? (fun e => e.fst == p) = none := by
      rw [List.find?_eq_none]
      intro x hx
      rw [List.any_eq_true] at ha
      exact fun hp => ha ⟨x, hx, hp⟩
    rw [find?_append_of_none hn]
    simp [List.find?]

theorem create_tsne_ok_inv {tsne : Reducer} {v : List (List Scalar)} {titles : List FieldVal}
    {key : String} {fs : FileStore} {c : RenderedChart} {fs2 : FileStore}
    (h : create_tsne_visualization tsne v titles key fs = Except.ok (c, fs2)) :
    ∃ ps ls,
      tsne TSNE_COMPONENTS (min MIN_PERPLEXITY ((v.length : Int) - 1)) 42 v = Except.ok ps
      ∧ pairLabels titles ps = Except.ok ls
      ∧ c = ⟨ps, ls, imagePath key⟩
      ∧ fs2 = fsWrite fs (imagePath key) c := by
  simp only [create_tsne_visualization] at h
  obtain ⟨ps, hps, h⟩ := exceptBind_ok h
  obtain ⟨ls, hls, h⟩ := exceptBind_ok h
  simp only [pure, Except.pure] at h
  cases h
  exact ⟨ps, ls, hps, hls, rfl, rfl⟩

theorem process_data_ok_inv {embed : Embedder} {tsne : Reducer} {qp : List (String × String)}
    {base_url : String} {st : PState} {res : ProcessResult} {st2 : PState}
    {dt src : String} {sel : DataSel} {tf lf : String}
    (hdt : queryGet qp "type" "articles" = dt)
    (hsrc : queryGet qp "source" "dummy" = src)
    (hr : get_data_by_type st.globals dt src = (sel, tf, lf))
    (h : process_data embed tsne qp base_url st = Except.ok (res, st2)) :
    ∃ sample texts es data2 titles rc,
      extractFields lf ((selData st.globals sel).take 3) = Except.ok sample
      ∧ extractFields tf (selData st.globals sel) = Except.ok texts
      ∧ embed EMBEDDING_MODEL texts = Except.ok es
      ∧ addEmbeddings (selData st.globals sel) es = Except.ok data2
      ∧ extractFields lf data2 = Except.ok titles
      ∧ create_tsne_visualization tsne es titles (dt ++ "_" ++ src) st.fs = Except.ok rc
      ∧ res = { type := dt, source := src, count := (selData st.globals sel).length,
                texts := texts,
                chart_url := rstripSlashes base_url ++ "/static/" ++ basename rc.fst.path }
      ∧ st2 = { globals := setData st.globals sel data2, fs := rc.snd } := by
  subst hdt
  subst hsrc
  simp only [process_data] at h
  rw [hr] at h
  obtain ⟨sample, hsample, h⟩ := exceptBind_ok h
  obtain ⟨texts, htexts, h⟩ := exceptBind_ok h
  obtain ⟨es, hes, h⟩ := exceptBind_ok h
  obtain ⟨data2, hdata2, h⟩ := exceptBind_ok h
  obtain ⟨titles, htitles, h⟩ := exceptBind_ok h
  obtain ⟨rc, hrc, h⟩ := exceptBind_ok h
  simp only [pure, Except.pure] at h
  cases h
  exact ⟨sample, texts, es, data2, titles, rc, hsample, htexts, hes, hdata2, htitles, hrc,
    rfl, rfl⟩

theorem fsWrite_paths_of_any {fs : FileStore} {p : String} (c : RenderedChart)
    (h : fs.any (fun e => e.fst == p) = true) :
    (fsWrite fs p c).map (fun e => e.fst) = fs.map (fun e => e.fst) := by
  unfold fsWrite
  rw [if_pos h]
  clear h
  induction fs with
  | nil => rfl
  | cons e fs ih =>
    simp only [List.map_cons]
    by_cases he : e.fst = p
    · have hif : (if e.fst == p then (p, c) else e) = (p, c) := by simp [he]
      rw [hif, ih, he]
    · have hif : (if e.fst == p then (p, c) else e) = e := by simp [he]
      rw [hif, ih]

/-! ### Claim theorems -/

/-- C4: for every batch of N embedding vectors handed to the dimensionality
reducer, the perplexity passed to the reduction algorithm equals
min(5, N − 1): a probe reducer that reports its perplexity argument always
reports exactly that value. -/
theorem C4_perplexity_clamp (v : List (List Scalar)) (titles : List FieldVal)
    (dt : String) (fs : FileStore) :
    create_tsne_visualization (fun _ p _ _ => Except.error (toString p)) v titles dt fs
      = Except.error (toString (min 5 ((v.length : Int) - 1))) := rfl

/-- C9: the reduction is deterministic under the fixed seed: with the reducer
modelled as a function of its perplexity, seed and input batch, two renderings
of the same batch yield identical projection sequences and label placements,
and the seed handed to the reducer is always the constant 42. -/
theorem C9_reduction_deterministic (tsne : Reducer) (v : List (List Scalar))
    (titles : List FieldVal) (dt : String) (fsa fsb : FileStore)
    (c1 c2 : RenderedChart) (g1 g2 : FileStore)
    (h1 : create_tsne_visualization tsne v titles dt fsa = Except.ok (c1, g1))
    (h2 : create_tsne_visualization tsne v titles dt fsb = Except.ok (c2, g2)) :
    c1.points = c2.points ∧ c1.labels = c2.labels
    ∧ create_tsne_visualization (fun _ _ seed _ => Except.error (toString seed)) v titles dt fsa
        = Except.error "42" := by
  obtain ⟨ps1, ls1, hp1, hl1, hc1, _⟩ := create_tsne_ok_inv h1
  obtain ⟨ps2, ls2, hp2, hl2, hc2, _⟩ := create_tsne_ok_inv h2
  rw [hp1] at hp2
  injection hp2 with hps
  subst hps
  rw [hl1] at hl2
  injection hl2 with hls
  subst hls
  subst hc1
  subst hc2
  exact ⟨rfl, rfl, rfl⟩

/-- C9 witness: the determinism theorem applied to a concrete two-vector
batch rendered twice. -/
theorem C9_reduction_deterministic_witness :
    create_tsne_visualization tsneOk [[0], [0]] [] "k" []
        = Except.ok (chartK, [("static/tsne_k.png", chartK)])
    ∧ (chartK.points = chartK.points ∧ chartK.labels = chartK.labels
       ∧ create_tsne_visualization (fun _ _ seed _ => Except.error (toString seed))
           [[0], [0]] [] "k" [] = Except.error "42") :=
  ⟨rfl, C9_reduction_deterministic tsneOk [[0], [0]] [] "k" [] [] chartK chartK
    [("static/tsne_k.png", chartK)] [("static/tsne_k.png", chartK)] rfl rfl⟩

/-- C10: every type other than "movies" resolves to the articles dataset with
text field "content" and title field "title", and movies requested from
huggingface fall back to the bundled dummy movies when the Hugging Face list
is empty. -/
theorem C10_get_data_fallbacks (g : Globals) (t s : String) (ht : t ≠ "movies") :
    get_data_by_type g t s = (DataSel.articles, "content", "title")
    ∧ (g.hfMovies = [] →
        get_data_by_type g "movies" "huggingface" = (DataSel.movies, "plot", "title")) := by
  refine ⟨?_, ?_⟩
  · simp [get_data_by_type, ht]
  · intro h
    simp [get_data_by_type, h]

/-- C10 witness: the fallback theorem applied at the unrecognized type
"banana" over empty globals. -/
theorem C10_get_data_fallbacks_witness :
    ("banana" : String) ≠ "movies"
    ∧ (get_data_by_type gEmpty "banana" "dummy" = (DataSel.articles, "content", "title")
       ∧ (gEmpty.hfMovies = [] →
           get_data_by_type gEmpty "movies" "huggingface"
             = (DataSel.movies, "plot", "title"))) :=
  ⟨by decide, C10_get_data_fallbacks gEmpty "banana" "dummy" (by decide)⟩

/-- C2 counterexample: with an empty resolved dataset the pipeline still calls
the embedding provider (a probing provider's failure marker surfaces as the
outcome, and the terminal response is the ordinary failure body, not a
distinct EmptyDataset outcome), and with a one-record dataset the
dimensionality reducer is invoked (a probing reducer's failure marker
surfaces). -/
theorem C2_counterexample :
    process_data embedFail tsneOk [] "u" ⟨gEmpty, []⟩ = Except.error "EMBED_CALLED"
    ∧ process_data embedOk tsneFail [] "u" ⟨gOne, []⟩ = Except.error "REDUCER_CALLED"
    ∧ (get_processed_data embedFail tsneOk [] "u" ⟨gEmpty, []⟩).fst
        = failureJson "EMBED_CALLED" :=
  ⟨rfl, rfl, rfl⟩

/-- C1: for every dataset run end-to-end successfully by the pipeline, under
the provider and reducer contracts (one output per input, in order), the
embedding batch, the projection points and the rendered label annotations all
have exactly N elements, the reported count is N, and positionally the i-th
annotation in the saved chart pairs the i-th input record's title value with
the i-th projection point. -/
theorem C1_pipeline_preserves_order
    (embed : Embedder) (tsne : Reducer) (qp : List (String × String)) (u : String)
    (st : PState) (res : ProcessResult) (st2 : PState)
    (dt src : String) (sel : DataSel) (tf lf : String) (N : Nat)
    (hembed : ∀ m ts es, embed m ts = Except.ok es → es.length = ts.length)
    (htsne : ∀ nc p s vs ps, tsne nc p s vs = Except.ok ps → ps.length = vs.length)
    (hdt : queryGet qp "type" "articles" = dt)
    (hsrc : queryGet qp "source" "dummy" = src)
    (hr : get_data_by_type st.globals dt src = (sel, tf, lf))
    (hN : (selData st.globals sel).length = N)
    (hN2 : 2 ≤ N)
    (h : process_data embed tsne qp u st = Except.ok (res, st2)) :
    ∃ texts es chart,
      extractFields tf (selData st.globals sel) = Except.ok texts
      ∧ embed EMBEDDING_MODEL texts = Except.ok es
      ∧ es.length = N
      ∧ res.count = N
      ∧ fsGet st2.fs (imagePath (dt ++ "_" ++ src)) = some chart
      ∧ chart.points.length = N
      ∧ chart.labels.length = N
      ∧ ∀ i, i < N → ∃ r t p,
          (selData st.globals sel).get? i = some r
          ∧ recGet r lf = some t
          ∧ chart.points.get? i = some p
          ∧ chart.labels.get? i = some (t, p) := by
  obtain ⟨sample, texts, es, data2, titles, rc, hs, ht, he, ha, htl, hc, hres, hst2⟩ :=
    process_data_ok_inv hdt hsrc hr h
  obtain ⟨ps, ls, hps, hls, hcc, hfs2⟩ := create_tsne_ok_inv hc
  have hlf : lf = "title" := by
    have h1 := get_data_by_type_title st.globals dt src
    rw [hr] at h1
    exact h1
  have hlen_texts : texts.length = N := by rw [extractFields_length ht, hN]
  have hlen_es : es.length = N := by rw [hembed _ _ _ he, hlen_texts]
  have hlen_ps : ps.length = N := by rw [htsne _ _ _ _ _ hps, hlen_es]
  have hlen_d2 : data2.length = N := by rw [addEmbeddings_length ha, hN]
  have hlen_titles : titles.length = N := by rw [extractFields_length htl, hlen_d2]
  have hzip : ls = titles.zip ps := pairLabels_ok_zip hls
  refine ⟨texts, es, rc.fst, ht, he, hlen_es, ?_, ?_, ?_, ?_, ?_⟩
  · rw [hres]
    exact hN
  · rw [hst2]
    show fsGet rc.snd (imagePath (dt ++ "_" ++ src)) = some rc.fst
    rw [hfs2]
    exact fsGet_fsWrite_self _ _ _
  · rw [hcc]
    exact hlen_ps
  · rw [hcc]
    show ls.length = N
    rw [hzip]
    simp [hlen_titles, hlen_ps]
  · intro i hi
    cases hget : (selData st.globals sel).get? i with
    | none =>
      exfalso
      have hlt : i < (selData st.globals sel).length := by rw [hN]; exact hi
      rw [List.get?_eq_none] at hget
      omega
    | some r =>
      obtain ⟨v, hvi, hd2i⟩ := addEmbeddings_get? ha hget
      obtain ⟨t, hti, htitlei⟩ := extractFields_get? htl hd2i
      have htr : recGet r lf = some t := by
        rw [recGet_recSet_ne r "embedding" lf (FieldVal.vec v) (by rw [hlf]; decide)] at hti
        exact hti
      cases hpget : ps.get? i with
      | none =>
        exfalso
        have hlt : i < ps.length := by rw [hlen_ps]; exact hi
        rw [List.get?_eq_none] at hpget
        omega
      | some p =>
        refine ⟨r, t, p, rfl, htr, ?_, ?_⟩
        · rw [hcc]
          exact hpget
        · rw [hcc]
          show ls.get? i = some (t, p)
          rw [hzip]
          exact (List.get?_zip_eq_some _ _ _ _).mpr ⟨htitlei, hpget⟩

/-- C1 witness: the order-preservation theorem applied to the fixture run
over the two-article dataset with the benign oracles. -/
theorem C1_pipeline_preserves_order_witness :
    (∀ m ts es, embedOk m ts = Except.ok es → es.length = ts.length)
    ∧ (∀ nc p s vs ps, tsneOk nc p s vs = Except.ok ps → ps.length = vs.length)
    ∧ (selData stFix.globals DataSel.articles).length = 2
    ∧ 2 ≤ 2
    ∧ ∃ texts es chart,
        extractFields "content" (selData stFix.globals DataSel.articles) = Except.ok texts
        ∧ embedOk EMBEDDING_MODEL texts = Except.ok es
        ∧ es.length = 2
        ∧ resFix.count = 2
        ∧ fsGet stAfter.fs (imagePath ("articles" ++ "_" ++ "dummy")) = some chart
        ∧ chart.points.length = 2
        ∧ chart.labels.length = 2
        ∧ ∀ i, i < 2 → ∃ r t p,
            (selData stFix.globals DataSel.articles).get? i = some r
            ∧ recGet r "title" = some t
            ∧ chart.points.get? i = some p
            ∧ chart.labels.get? i = some (t, p) :=
  ⟨by intro m ts es hx; simp only [embedOk] at hx; cases hx; simp,
   by intro nc p s vs ps hx; simp only [tsneOk] at hx; cases hx; simp,
   rfl, by decide,
   C1_pipeline_preserves_order embedOk tsneOk [] "http://h/" stFix resFix stAfter
     "articles" "dummy" DataSel.articles "content" "title" 2
     (by intro m ts es hx; simp only [embedOk] at hx; cases hx; simp)
     (by intro nc p s vs ps hx; simp only [tsneOk] at hx; cases hx; simp)
     rfl rfl rfl rfl (by decide) rfl⟩

/-- C2 amended: the pipeline performs no dataset-size short-circuit: with
N = 0 the embedding provider is still invoked on the empty batch and its
error surfaces as an ordinary failure (there is no distinct EmptyDataset
outcome), and with N = 1 the embedding succeeds and the dimensionality
reducer is invoked with the clamped perplexity min(5, 0) = 0, whose error
likewise surfaces as an ordinary failure. -/
theorem C2_no_size_short_circuit :
    (∀ (embed : Embedder) (tsne : Reducer) (qp : List (String × String)) (u : String)
       (st : PState) (sel : DataSel) (tf lf : String) (e : String),
       get_data_by_type st.globals (queryGet qp "type" "articles")
           (queryGet qp "source" "dummy") = (sel, tf, lf) →
       selData st.globals sel = [] →
       embed EMBEDDING_MODEL [] = Except.error e →
       process_data embed tsne qp u st = Except.error e)
    ∧ (∀ (embed : Embedder) (tsne : Reducer) (qp : List (String × String)) (u : String)
         (st : PState) (sel : DataSel) (tf lf : String) (r : Record)
         (t l : FieldVal) (v : List Scalar) (e : String),
         get_data_by_type st.globals (queryGet qp "type" "articles")
             (queryGet qp "source" "dummy") = (sel, tf, lf) →
         selData st.globals sel = [r] →
         recGet r lf = some l →
         recGet r tf = some t →
         embed EMBEDDING_MODEL [t] = Except.ok [v] →
         tsne TSNE_COMPONENTS 0 42 [v] = Except.error e →
         process_data embed tsne qp u st = Except.error e) := by
  constructor
  · intro embed tsne qp u st sel tf lf e hr hdata hembed
    simp only [process_data, hr]
    rw [hdata]
    simp [extractFields, generate_embeddings, hembed, Bind.bind, Except.bind]
  · intro embed tsne qp u st sel tf lf r t l v e hr hdata hl ht hembed htsne
    have hlf : lf = "title" := by
      have h1 := get_data_by_type_title st.globals (queryGet qp "type" "articles")
        (queryGet qp "source" "dummy")
      rw [hr] at h1
      exact h1
    have hgl : getField r lf = Except.ok l := getField_ok_iff.mpr hl
    have hgt : getField r tf = Except.ok t := getField_ok_iff.mpr ht
    have hgl2 : getField (recSet r "embedding" (FieldVal.vec v)) lf = Except.ok l := by
      apply getField_ok_iff.mpr
      rw [recGet_recSet_ne r "embedding" lf (FieldVal.vec v) (by rw [hlf]; decide)]
      exact hl
    have hperp : min MIN_PERPLEXITY (0 : Int) = 0 := by
      norm_num [MIN_PERPLEXITY]
    simp only [process_data, hr]
    rw [hdata]
    simp [extractFields, hgl, hgt, generate_embeddings, hembed, addEmbeddings,
      create_tsne_visualization, hgl2, hperp, htsne, Bind.bind, Except.bind]

/-- C2 amended witness: both conjuncts applied at concrete runs — the empty
dataset with a probing provider, and the one-record dataset with a probing
reducer. -/
theorem C2_no_size_short_circuit_witness :
    process_data embedFail tsneOk [] "u" ⟨gEmpty, []⟩ = Except.error "EMBED_CALLED"
    ∧ process_data embedOk tsneFail [] "u" ⟨gOne, []⟩ = Except.error "REDUCER_CALLED" :=
  ⟨C2_no_size_short_circuit.1 embedFail tsneOk [] "u" ⟨gEmpty, []⟩
      DataSel.articles "content" "title" "EMBED_CALLED" rfl rfl rfl,
   C2_no_size_short_circuit.2 embedOk tsneFail [] "u" ⟨gOne, []⟩
      DataSel.articles "content" "title" recA1 (FieldVal.str "alpha body")
      (FieldVal.str "Alpha") [0] "REDUCER_CALLED" rfl rfl rfl rfl rfl rfl⟩

/-- C5: the artifact path is a deterministic function of the artifact key,
and a second rendering with the same key, points and labels succeeds with the
identical chart, writes to the identical path, overwrites the prior file and
leaves the set of stored paths unchanged. -/
theorem C5_render_idempotent (tsne : Reducer) (v : List (List Scalar)) (titles : List FieldVal)
    (key : String) (fs : FileStore) (c : RenderedChart) (fs1 : FileStore)
    (h : create_tsne_visualization tsne v titles key fs = Except.ok (c, fs1)) :
    c.path = imagePath key
    ∧ create_tsne_visualization tsne v titles key fs1 = Except.ok (c, fsWrite fs1 c.path c)
    ∧ (fsWrite fs1 c.path c).map (fun e => e.fst) = fs1.map (fun e => e.fst)
    ∧ fsGet (fsWrite fs1 c.path c) c.path = some c := by
  obtain ⟨ps, ls, hps, hls, hc, hfs1⟩ := create_tsne_ok_inv h
  subst hc
  refine ⟨rfl, ?_, ?_, fsGet_fsWrite_self _ _ _⟩
  · simp only [create_tsne_visualization, Bind.bind, Except.bind, hps, hls, pure, Except.pure]
  · have hany : fs1.any
        (fun e => e.fst == (⟨ps, ls, imagePath key⟩ : RenderedChart).path) = true := by
      rw [hfs1]
      exact fsWrite_any_self fs (imagePath key) _
    exact fsWrite_paths_of_any _ hany

/-- C3: the endpoint ignores the `text_field` and `title_field` query
parameters entirely: on the failing input `text_field=nonexistent` the request
is processed exactly as if the parameter were absent, and it succeeds instead
of failing with any field error carrying the available field names. -/
theorem C3_field_override_ignored :
    get_processed_data embedOk tsneOk
        [("type", "articles"), ("text_field", "nonexistent")] "http://h/" stFix
      = get_processed_data embedOk tsneOk [("type", "articles")] "http://h/" stFix
    ∧ successFlag (get_processed_data embedOk tsneOk
        [("type", "articles"), ("text_field", "nonexistent")] "http://h/" stFix).fst
      = some true :=
  ⟨rfl, rfl⟩

/-- C6 counterexample: on a concrete successful run the data object's keys are
type, source, count, texts and chart_url — there is no fields_used key and no
origin key — and on a concrete failing run the response keys are success,
error and message — there is no error_type key. -/
theorem C6_counterexample :
    dataKeys (get_processed_data embedOk tsneOk [] "http://h/" stFix).fst
      = some ["type", "source", "count", "texts", "chart_url"]
    ∧ "fields_used" ∉ ["type", "source", "count", "texts", "chart_url"]
    ∧ "origin" ∉ ["type", "source", "count", "texts", "chart_url"]
    ∧ respKeys (get_processed_data embedFail tsneOk [] "http://h/" stFix).fst
      = ["success", "error", "message"]
    ∧ "error_type" ∉ ["success", "error", "message"] :=
  ⟨rfl, by decide, by decide, rfl, by decide⟩

/-- C6 amended: every request returns one of exactly two structured shapes —
on success, success=true with a data object holding type, source, count,
texts and chart_url; on failure, success=false with an error string and a
fixed message (no error_type tag) — so a stage failure never escapes the
endpoint unhandled. -/
theorem C6_response_shape (embed : Embedder) (tsne : Reducer) (qp : List (String × String))
    (u : String) (st : PState) :
    (∃ d st2, process_data embed tsne qp u st = Except.ok (d, st2)
      ∧ (get_processed_data embed tsne qp u st).fst = successJson d
      ∧ respKeys (successJson d) = ["success", "data"]
      ∧ dataKeys (successJson d) = some ["type", "source", "count", "texts", "chart_url"]
      ∧ successFlag (successJson d) = some true)
    ∨ (∃ e, process_data embed tsne qp u st = Except.error e
      ∧ (get_processed_data embed tsne qp u st).fst = failureJson e
      ∧ respKeys (failureJson e) = ["success", "error", "message"]
      ∧ successFlag (failureJson e) = some false) := by
  cases h : process_data embed tsne qp u st with
  | ok d =>
    left
    refine ⟨d.fst, d.snd, rfl, ?_, rfl, rfl, rfl⟩
    simp [get_processed_data, h]
  | error e =>
    right
    refine ⟨e, rfl, ?_, rfl, rfl⟩
    simp [get_processed_data, h]

/-- C7 counterexample: a successful pipeline run mutates the process-wide
dataset in place — after the run the stored articles records differ from the
records before the run (each has gained an embedding entry), so state owned
beyond the request is changed and the embeddings outlive the request. -/
theorem C7_counterexample :
    (get_processed_data embedOk tsneOk [] "http://h/" stFix).snd.globals.articles
      ≠ stFix.globals.articles := by decide

/-- C7 amended: the embedding stage itself caches nothing, but on every
successful run the orchestrator writes each record's embedding vector into
the resolved dataset's records in place, and this mutation persists in the
process-wide dataset beyond the request; the unselected datasets are
unchanged. -/
theorem C7_mutation_frame (embed : Embedder) (tsne : Reducer) (qp : List (String × String))
    (u : String) (st : PState) (res : ProcessResult) (st2 : PState)
    (dt src : String) (sel : DataSel) (tf lf : String)
    (hdt : queryGet qp "type" "articles" = dt)
    (hsrc : queryGet qp "source" "dummy" = src)
    (hr : get_data_by_type st.globals dt src = (sel, tf, lf))
    (h : process_data embed tsne qp u st = Except.ok (res, st2)) :
    ∃ texts es data2,
      extractFields tf (selData st.globals sel) = Except.ok texts
      ∧ embed EMBEDDING_MODEL texts = Except.ok es
      ∧ addEmbeddings (selData st.globals sel) es = Except.ok data2
      ∧ st2.globals = setData st.globals sel data2
      ∧ ∀ sel2, sel2 ≠ sel → selData st2.globals sel2 = selData st.globals sel2 := by
  obtain ⟨sample, texts, es, data2, titles, rc, hs, ht, he, ha, htl, hc, hres, hst2⟩ :=
    process_data_ok_inv hdt hsrc hr h
  refine ⟨texts, es, data2, ht, he, ha, by rw [hst2], ?_⟩
  intro sel2 hne
  rw [hst2]
  exact selData_setData_ne st.globals sel sel2 data2 hne

/-- C7 witness: the mutation-frame theorem applied to the fixture run over the
two-article dataset. -/
theorem C7_mutation_frame_witness :
    process_data embedOk tsneOk [] "http://h/" stFix = Except.ok (resFix, stAfter)
    ∧ ∃ texts es data2,
        extractFields "content" (selData stFix.globals DataSel.articles) = Except.ok texts
        ∧ embedOk EMBEDDING_MODEL texts = Except.ok es
        ∧ addEmbeddings (selData stFix.globals DataSel.articles) es = Except.ok data2
        ∧ stAfter.globals = setData stFix.globals DataSel.articles data2
        ∧ ∀ sel2, sel2 ≠ DataSel.articles →
            selData stAfter.globals sel2 = selData stFix.globals sel2 :=
  ⟨rfl, C7_mutation_frame embedOk tsneOk [] "http://h/" stFix resFix stAfter
    "articles" "dummy" DataSel.articles "content" "title" rfl rfl rfl rfl⟩

/-- C8 counterexample: with the source parameter omitted the pipeline uses
source "dummy", not "builtin": the concrete run with no query parameters
reports source "dummy". -/
theorem C8_counterexample :
    process_data embedOk tsneOk [] "http://h/" stFix = Except.ok (resFix, stAfter)
    ∧ resFix.source = "dummy"
    ∧ ("dummy" : String) ≠ "builtin" :=
  ⟨rfl, rfl, by decide⟩

/-- C8 amended: when the request omits the type parameter it defaults to
"articles", and when it omits the source parameter it defaults to "dummy". -/
theorem C8_default_params (embed : Embedder) (tsne : Reducer) (qp : List (String × String))
    (u : String) (st : PState) (res : ProcessResult) (st2 : PState)
    (h1 : qp.find? (fun kv => kv.fst == "type") = none)
    (h2 : qp.find? (fun kv => kv.fst == "source") = none)
    (h : process_data embed tsne qp u st = Except.ok (res, st2)) :
    res.type = "articles" ∧ res.source = "dummy" := by
  have hdt : queryGet qp "type" "articles" = "articles" := by simp [queryGet, h1]
  have hsrc : queryGet qp "source" "dummy" = "dummy" := by simp [queryGet, h2]
  obtain ⟨sample, texts, es, data2, titles, rc, _, _, _, _, _, _, hres, _⟩ :=
    process_data_ok_inv hdt hsrc rfl h
  rw [hres]
  exact ⟨rfl, rfl⟩

/-- C8 witness: the defaulting theorem applied to the fixture run with an
empty query map. -/
theorem C8_default_params_witness :
    ([] : List (String × String)).find? (fun kv => kv.fst == "type") = none
    ∧ ([] : List (String × String)).find? (fun kv => kv.fst == "source") = none
    ∧ process_data embedOk tsneOk [] "http://h/" stFix = Except.ok (resFix, stAfter)
    ∧ (resFix.type = "articles" ∧ resFix.source = "dummy") :=
  ⟨rfl, rfl, rfl,
   C8_default_params embedOk tsneOk [] "http://h/" stFix resFix stAfter rfl rfl rfl⟩

/-- C5 witness: the idempotence theorem applied to a concrete render under
key "k". -/
theorem C5_render_idempotent_witness :
    create_tsne_visualization tsneOk [[0], [0]] [] "k" []
        = Except.ok (chartK, [("static/tsne_k.png", chartK)])
    ∧ (chartK.path = imagePath "k"
       ∧ create_tsne_visualization tsneOk [[0], [0]] [] "k" [("static/tsne_k.png", chartK)]
           = Except.ok (chartK, fsWrite [("static/tsne_k.png", chartK)] chartK.path chartK)
       ∧ (fsWrite [("static/tsne_k.png", chartK)] chartK.path chartK).map (fun e => e.fst)
           = [("static/tsne_k.png", chartK)].map (fun e => e.fst)
       ∧ fsGet (fsWrite [("static/tsne_k.png", chartK)] chartK.path chartK) chartK.path
           = some chartK) :=
  ⟨rfl, C5_render_idempotent tsneOk [[0], [0]] [] "k" [] chartK
    [("static/tsne_k.png", chartK)] rfl⟩

end EmbVis
